import Mathlib

/-!
Verification of the YouTube-scraping repository's core data pipeline:
the format-record builder and filter chain (`src/utils/Video.js`) and the
playlist range validator and download orchestrator (`src/utils/Playlist.js`).
Network calls (`ytdl-core`'s `getInfo`, `ytpl`) are abstracted as explicit
fetch-result parameters; everything downstream of a fetch result is a faithful
translation of the JavaScript source.
-/

namespace YtScrape

/-! String helpers mirroring the JavaScript string operations used by the source. -/

/-- Case-insensitive match of the literal pattern `label` at position `p` of `s`
(JavaScript regex with the `i` flag, pattern without metacharacters). -/
def matchAt (s : List Char) (p : Nat) (label : List Char) : Bool :=
  decide (p + label.length ≤ s.length) &&
    ((s.drop p).take label.length).map Char.toLower == label.map Char.toLower

/-- Case-sensitive match of the literal `pat` at the start of `s`. -/
def literalAt (s : List Char) (pat : List Char) : Bool :=
  decide (pat.length ≤ s.length) && (s.take pat.length == pat)

/-- The characters of `s` before the first occurrence of `sep`; all of `s` when
`sep` does not occur. Models `s.split(sep)[0]` from JavaScript. -/
def splitHead (sep : List Char) : List Char → List Char
  | [] => []
  | c :: rest => if literalAt (c :: rest) sep then [] else c :: splitHead sep rest

/-- First label of `labels` (alternation order) matching at position `p`,
returning its length. Models which alternative of `(l1|l2|...)` wins. -/
def firstLabelAt (labels : List (List Char)) (s : List Char) (p : Nat) : Option Nat :=
  labels.findSome? (fun l => if matchAt s p l then some l.length else none)

/-- Earliest position `≥ p` (with `fuel` positions left to try) where some label
matches, together with the matched length. Models the regex engine's scan. -/
def scanFrom (labels : List (List Char)) (s : List Char) : Nat → Nat → Option (Nat × Nat)
  | _, 0 => none
  | p, fuel + 1 =>
    match firstLabelAt labels s p with
    | some len => some (p, len)
    | none => scanFrom labels s (p + 1) fuel

/-- One call of JavaScript `RegExp.test` on a regex with the `g` flag:
the search starts at `lastIndex`; on a match the new `lastIndex` is the match
end, on failure it resets to 0. Returns (result, new lastIndex). -/
def regexTest (labels : List (List Char)) (s : List Char) (lastIndex : Nat) : Bool × Nat :=
  match scanFrom labels s lastIndex (s.length + 1 - lastIndex) with
  | some (p, len) => (true, p + len)
  | none => (false, 0)

/-- Global case-insensitive replacement of the literal `pat` by `rep`
(JavaScript `String.replace` with a `gi` regex of a literal pattern).
`fuel` is the remaining input length. -/
def replaceLoop (pat rep : List Char) : List Char → Nat → List Char
  | _, 0 => []
  | [], _ => []
  | c :: rest, fuel + 1 =>
    if matchAt (c :: rest) 0 pat && decide (pat.length ≠ 0) then
      rep ++ replaceLoop pat rep ((c :: rest).drop pat.length) fuel
    else
      c :: replaceLoop pat rep rest fuel

/-- `url.replace(/\/videoplayback\?/gi, "/videoplayback/<n> - <title>?")`. -/
def jsReplaceVideoplayback (videoNumber : Nat) (videoTitle : String) (url : String) : String :=
  String.mk (replaceLoop ("/videoplayback?".toList)
    (("/videoplayback/" ++ toString videoNumber ++ " - " ++ videoTitle ++ "?").toList)
    url.toList url.toList.length)

/-- `videoTitle.replace(/([\/|#])/gi, "~")`. -/
def sanitizeTitle (t : String) : String :=
  String.mk (t.toList.map (fun c => if c = '/' || c = '|' || c = '#' then '~' else c))

/-! Data model of `src/utils/Video.js`. -/

/-- A raw stream-format descriptor as delivered by the provider. `mimeType` is
`none` when the descriptor lacks the key; `qualityLabel` is `none` for
JavaScript `null`/`undefined`. `hasVideoTrack` stands for the provider's own
video-presence flag, which the source never reads. -/
structure RawFormat where
  mimeType : Option String
  qualityLabel : Option String
  hasAudio : Bool
  hasVideoTrack : Bool
  url : String
deriving DecidableEq, Repr

/-- The record produced by `Video.#prepare_formats` for one raw descriptor. -/
structure FormatRecord where
  title : String
  mimeType : String
  hasVideo : Bool
  hasAudio : Bool
  type : String
  quality : Option String
  url : String
deriving DecidableEq, Repr

/-- The body of the `map` in `Video.#prepare_formats` (lines 112-135):
builds one `FormatRecord` from a raw descriptor. `videoTitle` is the already
sanitized title. The `mimeType.getD ""` is unreachable garbage: every caller
filters for `mimeType` presence first. -/
def buildRecord (videoNumber : Nat) (videoTitle : String) (f : RawFormat) : FormatRecord :=
  let mimeType := f.mimeType.getD ""
  let quality := f.qualityLabel
  let str_mimeType := String.mk (splitHead ("; ".toList) mimeType.toList)
  let hasVideo := quality.isSome
  let type :=
    if hasVideo && f.hasAudio then "video and audio"
    else if hasVideo then "video"
    else if f.hasAudio then "audio"
    else "others"
  let title := str_mimeType ++ " [" ++ (if hasVideo then quality.getD "" else "") ++ "] ["
    ++ (if f.hasAudio then "+audio" else "-audio") ++ "]"
  let url := jsReplaceVideoplayback videoNumber videoTitle f.url
  { title := title, mimeType := mimeType, hasVideo := hasVideo, hasAudio := f.hasAudio,
    type := type, quality := quality, url := url }

/-- `Video.#prepare_formats`: drop descriptors without a `mimeType` key, then
build a record for each remaining one. -/
def prepare_formats (formats : List RawFormat) (videoNumber : Nat) (videoTitle : String) :
    List FormatRecord :=
  let vt := sanitizeTitle videoTitle
  (formats.filter (fun f => f.mimeType.isSome)).map (buildRecord videoNumber vt)

/-- The `types` argument of `Video.#filter_formats_by_types`: either not an
array (any non-array JavaScript value) or an array of type names. -/
inductive JSTypes where
  | notArray
  | arr (types : List String)
deriving DecidableEq, Repr

/-- `Video.#filter_formats_by_types`: a non-array selector skips filtering;
otherwise keep records whose `type` is in the selector. -/
def filter_formats_by_types (formats : List FormatRecord) (types : JSTypes) : List FormatRecord :=
  match types with
  | .notArray => formats
  | .arr ts => formats.filter (fun format => ts.contains format.type)

/-- A quality selector: a JavaScript object as an insertion-ordered list of
(label, enabled) entries, keys distinct. -/
abbrev QualitySelector := List (String × Bool)

/-- Modelled from the spec: `src/constants/default_qualitys.js` is not among
the repository files provided; per the spec and the README the default
selector lists every known quality label, all disabled. -/
def D_Q : QualitySelector :=
  [("144p", false), ("240p", false), ("360p", false), ("480p", false),
   ("720p", false), ("1080p", false), ("1440p", false), ("2160p", false)]

/-- JavaScript object spread `{...base, ...overlay}`: base keys in base order
with overlay values where present, then overlay-only keys in overlay order. -/
def jsMergeSelectors (base overlay : QualitySelector) : QualitySelector :=
  base.map (fun kv => (kv.1, (overlay.lookup kv.1).getD kv.2))
    ++ overlay.filter (fun kv => (base.lookup kv.1).isNone)

/-- The labels of the enabled entries, in object order. -/
def enabledQualities (q : QualitySelector) : List String :=
  (q.filter (fun kv => kv.2)).map (fun kv => kv.1)

/-- The `formats.filter((format) => regExp.test(format.title))` step: the regex
object is shared by all predicate calls, so `lastIndex` carries over from one
record to the next. -/
def qualityFilterLoop (labels : List (List Char)) : List FormatRecord → Nat → List FormatRecord
  | [], _ => []
  | f :: fs, lastIndex =>
    match regexTest labels f.title.toList lastIndex with
    | (true, li) => f :: qualityFilterLoop labels fs li
    | (false, li) => qualityFilterLoop labels fs li

/-- `Video.#filter_formats_by_qualitys`: merge over `D_Q`, join the enabled
labels with `|`; an empty joined string skips filtering, otherwise filter with
a shared `gi`-flagged regex over the record titles. -/
def filter_formats_by_qualitys (formats : List FormatRecord) (qualitys : QualitySelector) :
    List FormatRecord :=
  let merged := jsMergeSelectors D_Q qualitys
  let enabled := enabledQualities merged
  let joined := String.intercalate "|" enabled
  if joined = "" then formats
  else qualityFilterLoop (enabled.map String.toList) formats 0

/-- The per-claim pointwise predicate of the spec's words: the title contains
some occurrence of the label as a case-insensitive substring. Used only to
compare the source's filter against the specified behaviour. -/
def titleContainsCI (title label : String) : Bool :=
  (List.range (title.length + 1)).any (fun p => matchAt title.toList p label.toList)

/-! `Video.getInfo` and the download-link operations. -/

/-- The assembled video data object. -/
structure VideoData where
  id : String
  title : String
  video_url : String
  formats : List FormatRecord
deriving DecidableEq, Repr

/-- `VideoData` field of a successful response: the structured object, or its
text serialization when `VideoDataType` is `"text"`. -/
inductive VideoPayload where
  | json (data : VideoData)
  | text (data : String)
deriving DecidableEq, Repr

/-- `Video.#data_to_text`. -/
def data_to_text (videoData : VideoData) : String :=
  let separator := String.mk (List.replicate 100 '-')
  let header := "ID          : " ++ videoData.id ++ "\n" ++ "Title       : " ++ videoData.title
    ++ "\n" ++ "Youtube Url : " ++ videoData.video_url
  let formattedFormats := String.intercalate "\n\n"
    (videoData.formats.map (fun format => "Type : " ++ format.title ++ "\n" ++ "Url  : " ++ format.url))
  header ++ "\n" ++ separator ++ "\n\n" ++ formattedFormats

/-- The envelope returned by `Video.getInfo` (JSDoc `VideoResponse`). -/
structure VideoResponse where
  VideoData : Option VideoPayload
  err : Bool
  err_msg : String
deriving DecidableEq, Repr

/-- What `ytdl-core`'s `getInfo` delivers on success: the fields the source
reads (`videoDetails` and `formats`). -/
structure RawVideoInfo where
  videoId : String
  title : String
  video_url : String
  formats : List RawFormat
deriving DecidableEq, Repr

/-- Outcome of one provider call: the resolved info or the thrown error's
message. -/
inductive FetchResult where
  | ok (info : RawVideoInfo)
  | fail (msg : String)
deriving DecidableEq, Repr

/-- Whether a character is trimmed by JavaScript `String.prototype.trim`
(the whitespace the source's option strings can carry). -/
def jsWhitespace (c : Char) : Bool :=
  c = ' ' || c = '\t' || c = '\n' || c = '\r'

/-- JavaScript `s.trim()`. -/
def jsTrim (s : String) : String :=
  String.mk (((s.toList.dropWhile jsWhitespace).reverse.dropWhile jsWhitespace).reverse)

/-- JavaScript `s.toLowerCase()` on ASCII option strings. -/
def jsToLower (s : String) : String :=
  String.mk (s.toList.map Char.toLower)

/-- `VideoDataType?.trim().toLowerCase() || "json"` (the playlist module writes
the equivalent `toLowerCase().trim()`). -/
def normVideoDataType (s : String) : String :=
  let t := jsToLower (jsTrim s)
  if t = "" then "json" else t

/-- `Video.getInfo` with the provider call abstracted as `fetch`. Arguments are
the option values after the spread over `MAIN_GET_INFO_OPTIONS`. -/
def Video_getInfo (fetch : String → FetchResult) (url : String) (VideoNumber : Nat)
    (VideoDataType : String) (types : JSTypes) (qualitys : QualitySelector) : VideoResponse :=
  let vdt := normVideoDataType VideoDataType
  match fetch url with
  | .fail msg => { VideoData := none, err := true, err_msg := "Failed to get video info: " ++ msg }
  | .ok info =>
    let formats1 := prepare_formats info.formats VideoNumber info.title
    let formats2 := filter_formats_by_types formats1 types
    let formats3 := filter_formats_by_qualitys formats2 qualitys
    let vd : VideoData :=
      { id := info.videoId, title := info.title, video_url := info.video_url, formats := formats3 }
    if vdt = "text" then { VideoData := some (.text (data_to_text vd)), err := false, err_msg := "" }
    else { VideoData := some (.json vd), err := false, err_msg := "" }

/-- The envelope returned by the download-link operations (JSDoc
`DownloadResponse`). -/
structure DownloadResponse where
  results : Option String
  err : Bool
  err_msg : String
deriving DecidableEq, Repr

/-- `Video.getDownloadLink`. It calls `Video.getInfo` without `VideoDataType`,
so the merged options give `"json"`. The final catch-all branch corresponds to
the TypeError the JavaScript would throw if `VideoData` were a text string; it
is unreachable for this call. -/
def getDownloadLink (fetch : String → FetchResult) (videoUrl : String) (videoNumber : Nat)
    (types : JSTypes) (qualitys : QualitySelector) : DownloadResponse :=
  let contextInfo := "| N: " ++ toString videoNumber ++ " | url: " ++ videoUrl
  let r := Video_getInfo fetch videoUrl videoNumber "json" types qualitys
  if r.err then
    { results := none, err := true,
      err_msg := "ERROR: In Get Download Link " ++ contextInfo ++ " | ERROR MESSAGE: " ++ r.err_msg }
  else
    match r.VideoData with
    | some (.json vd) =>
      match vd.formats with
      | [] =>
        { results := some ("No download link found " ++ contextInfo), err := false, err_msg := "" }
      | format :: _ =>
        { results := some format.url, err := false, err_msg := "" }
    | _ =>
      { results := none, err := true,
        err_msg := "ERROR: In Get Download Link " ++ contextInfo ++ " | ERROR MESSAGE: TypeError" }

/-- The `videoUrls` argument of `getDownloadLinkForMany`: a single string or an
array of strings. -/
inductive UrlsArg where
  | one (url : String)
  | many (urls : List String)
deriving DecidableEq, Repr

/-- The normalization `if (typeof videoUrls === "string") videoUrls = [videoUrls]`. -/
def urlsOf (videoUrls : UrlsArg) : List String :=
  match videoUrls with
  | .one url => [url]
  | .many urls => urls

/-- The loop of `getDownloadLinkForMany`: slot `i` (0-based) holds the item's
error message on failure, otherwise its `results` value (JavaScript `join`
renders a `null` slot as the empty string). -/
def manyLinks (fetch : String → FetchResult) (types : JSTypes) (qualitys : QualitySelector) :
    List String → Nat → List String
  | [], _ => []
  | url :: rest, i =>
    let r := getDownloadLink fetch url (i + 1) types qualitys
    (if r.err then r.err_msg else r.results.getD "") :: manyLinks fetch types qualitys rest (i + 1)

/-- `Video.getDownloadLinkForMany`: joined slots, always a success envelope. -/
def getDownloadLinkForMany (fetch : String → FetchResult) (videoUrls : UrlsArg)
    (types : JSTypes) (qualitys : QualitySelector) : DownloadResponse :=
  { results := some (String.intercalate "\n\n" (manyLinks fetch types qualitys (urlsOf videoUrls) 0)),
    err := false, err_msg := "" }

/-! `src/utils/Playlist.js`: range validation and the download orchestrator. -/

/-- A JavaScript value passed as `from` or `to`: `null`, a number, or a value
on which `isNaN` is true (`undefined`, `NaN`, a non-numeric string). -/
inductive JSNum where
  | null
  | num (n : Int)
  | nonNumeric
deriving DecidableEq, Repr

/-- `from === null || isNaN(from) ? dflt : Number(from)`. -/
def jsNormalize (v : JSNum) (dflt : Int) : Int :=
  match v with
  | .num n => n
  | _ => dflt

/-- The object returned by `Playlist.#prepare_from_to`. The source's `from` and
`to` fields are named `fromN` and `toN` (`from` is reserved in Lean). -/
structure RangeResult where
  succ : Bool
  msg_err : String
  fromN : Option Int
  toN : Option Int
deriving DecidableEq, Repr

/-- `Playlist.#prepare_from_to` with the `numberVideo(url)` provider call
abstracted as `countResult`. -/
def prepare_from_to (countResult : Except String Int) (fromArg toArg : JSNum) : RangeResult :=
  match countResult with
  | .error err_msg =>
    { succ := false,
      msg_err := "Error in Get Number Videos in Playlist | ERROR MESSAGE: " ++ err_msg,
      fromN := none, toN := none }
  | .ok numberVideo =>
    let normalizedFrom := jsNormalize fromArg 1
    let normalizedTo := jsNormalize toArg numberVideo
    if normalizedFrom ≤ 0 ∨ normalizedTo ≤ 0 then
      { succ := false,
        msg_err := "ERROR: From '" ++ toString normalizedFrom ++ "' and To '"
          ++ toString normalizedTo ++ "' must be greater than 0",
        fromN := none, toN := none }
    else if normalizedFrom > normalizedTo then
      { succ := false,
        msg_err := "ERROR: From '" ++ toString normalizedFrom
          ++ "' must be less than or equal to To '" ++ toString normalizedTo ++ "'",
        fromN := none, toN := none }
    else if normalizedFrom > numberVideo ∨ normalizedTo > numberVideo then
      { succ := false,
        msg_err := "ERROR: From '" ++ toString normalizedFrom ++ "' and To '"
          ++ toString normalizedTo
          ++ "' must not be greater than the number of videos in playlist ("
          ++ toString numberVideo ++ ")",
        fromN := none, toN := none }
    else
      { succ := true, msg_err := "", fromN := some normalizedFrom, toN := some normalizedTo }

/-- One playlist entry as delivered by `ytpl` and stored by `Playlist.getInfo`
under key `index + 1` (fields `id`, `title`, `video_url`). -/
structure PlaylistItem where
  id : String
  title : String
  url : String
deriving DecidableEq, Repr

/-- One element pushed into the `downloadLinks` array by `getDownloadsLinks`:
either a placeholder string, or — as the source is written — the whole
`DownloadResponse` object returned by `Video.getDownloadLink`. -/
inductive JsonSlot where
  | str (s : String)
  | obj (r : DownloadResponse)
deriving DecidableEq, Repr

/-- Whether a slot is a plain string. -/
def isStrSlot (slot : JsonSlot) : Bool :=
  match slot with
  | .str _ => true
  | .obj _ => false

/-- JavaScript string interpolation of a slot (text mode): an object renders as
`[object Object]`. -/
def jsSlotText (slot : JsonSlot) : String :=
  match slot with
  | .str s => s
  | .obj _ => "[object Object]"

/-- The body of the `for` loop of `getDownloadsLinks` at index `videoIndex`:
`PlaylistData.videos` holds the items under keys `1..items.length`, each with a
`video_url`; a missing key or a falsy (empty) URL yields the placeholder. -/
def slotAt (fetch : String → FetchResult) (types : JSTypes) (qualitys : QualitySelector)
    (items : List PlaylistItem) (videoIndex : Nat) : JsonSlot :=
  match items.get? (videoIndex - 1) with
  | some item =>
    if item.url = "" then .str ("Video URL not found | N: " ++ toString videoIndex)
    else .obj (getDownloadLink fetch item.url videoIndex types qualitys)
  | none => .str ("Video URL not found | N: " ++ toString videoIndex)

/-- The `for (let videoIndex = from; videoIndex <= to; videoIndex++)` loop:
`count` iterations starting at `fromIdx`. -/
def loopSlots (fetch : String → FetchResult) (types : JSTypes) (qualitys : QualitySelector)
    (items : List PlaylistItem) : Nat → Nat → List JsonSlot
  | _, 0 => []
  | fromIdx, count + 1 =>
    slotAt fetch types qualitys items fromIdx :: loopSlots fetch types qualitys items (fromIdx + 1) count

/-- The `results` payload of `getDownloadsLinks`: an array (json mode) or an
accumulated string (text mode). -/
inductive LinksPayload where
  | arr (slots : List JsonSlot)
  | txt (s : String)
deriving DecidableEq, Repr

/-- The envelope returned by `Playlist.getDownloadsLinks` (JSDoc
`DownloadLinksResponse`). -/
structure DownloadLinksResponse where
  results : Option LinksPayload
  err : Bool
  err_msg : String
deriving DecidableEq, Repr

/-- `Playlist.getDownloadsLinks` with the two provider calls abstracted:
`countResult` for `numberVideo(url)` inside `#prepare_from_to`, and
`playlistResult` for `getInfo(url)` (already reduced to its ordered items).
A playlist-fetch failure raises `Error in download playlist data: <getInfo
message>` where the inner message is `Failed to get playlist info: <cause>`. -/
def Playlist_getDownloadsLinks (fetch : String → FetchResult)
    (countResult : Except String Int) (playlistResult : Except String (List PlaylistItem))
    (VideoDataType : String) (types : JSTypes) (fromArg toArg : JSNum)
    (qualitys : QualitySelector) : DownloadLinksResponse :=
  let responseFormat := normVideoDataType VideoDataType
  let r := prepare_from_to countResult fromArg toArg
  if r.succ = false then
    { results := none, err := true, err_msg := r.msg_err }
  else
    match playlistResult with
    | .error msg =>
      { results := none, err := true,
        err_msg := "Error in download playlist data: " ++ ("Failed to get playlist info: " ++ msg) }
    | .ok items =>
      let fromIdx := (r.fromN.getD 1).toNat
      let toIdx := (r.toN.getD 0).toNat
      let slots := loopSlots fetch types qualitys items fromIdx (toIdx + 1 - fromIdx)
      if responseFormat = "text" then
        { results := some (.txt (String.join (slots.map (fun s => jsSlotText s ++ "\n")))),
          err := false, err_msg := "" }
      else
        { results := some (.arr slots), err := false, err_msg := "" }

/-! The remaining public operations: the raw passthrough helpers of the Video
and Playlist modules, `Playlist.getInfo`, and the YoutubeSearch module
(`src/utils/YoutubeSearch.js`). Payloads shaped by the external
`@el-zazo/main-utils` helpers are abstracted as parameters; the envelope logic
is translated from the source. -/

/-- The envelope returned by `Video.main_getInfo` (the raw `ytdl-core` info). -/
structure MainVideoResponse where
  VideoData : Option RawVideoInfo
  err : Bool
  err_msg : String
deriving DecidableEq, Repr

/-- `Video.main_getInfo`: the raw info on success; on failure the provider's
message is returned verbatim (`err_msg: error.message`, no context prefix). -/
def main_getInfo (fetch : String → FetchResult) (url : String) : MainVideoResponse :=
  match fetch url with
  | .ok info => { VideoData := some info, err := false, err_msg := "" }
  | .fail msg => { VideoData := none, err := true, err_msg := msg }

/-- What `ytpl` delivers on success: the fields the playlist module reads. -/
structure RawPlaylistInfo where
  id : String
  title : String
  estimatedItemCount : Int
  items : List PlaylistItem
deriving DecidableEq, Repr

/-- The envelope of the playlist operations (JSDoc `PlaylistResponse`). -/
structure PlaylistResponse (α : Type) where
  PlaylistData : Option α
  err : Bool
  err_msg : String
deriving DecidableEq, Repr

/-- The `limit` normalization of `main_ytpl`: `isNaN(limit) ? 1 : limit`.
Unlike the range defaults, `null` is not caught here (JavaScript `isNaN(null)`
is false), so only non-numeric values fall back to 1. -/
def jsNormalizeLimit (limit : JSNum) : JSNum :=
  match limit with
  | .nonNumeric => .num 1
  | v => v

/-- `Playlist.main_ytpl` with the `ytpl(url, {limit})` call abstracted as
`ytplFetch`; on failure the provider's message is returned verbatim. -/
def main_ytpl (ytplFetch : String → JSNum → Except String RawPlaylistInfo)
    (url : String) (limit : JSNum) : PlaylistResponse RawPlaylistInfo :=
  match ytplFetch url (jsNormalizeLimit limit) with
  | .ok PlaylistData => { PlaylistData := some PlaylistData, err := false, err_msg := "" }
  | .error msg => { PlaylistData := none, err := true, err_msg := msg }

/-- The envelope returned by `Playlist.numberVideo` (JSDoc
`NumberVideoResponse`). -/
structure NumberVideoResponse where
  numberVideo : Option Int
  err : Bool
  err_msg : String
deriving DecidableEq, Repr

/-- `Playlist.numberVideo` with the `ytpl` call abstracted to its numeric
`estimatedItemCount` (so `parseInt` is the identity) or the thrown error's
message, which is returned verbatim with no context prefix. -/
def numberVideo (countFetch : Except String Int) : NumberVideoResponse :=
  match countFetch with
  | .ok estimatedItemCount =>
    { numberVideo := some estimatedItemCount, err := false, err_msg := "" }
  | .error msg => { numberVideo := none, err := true, err_msg := msg }

/-- One entry of the `videos` object built by `Playlist.getInfo`. -/
structure PlaylistVideoEntry where
  id : String
  title : String
  video_url : String
deriving DecidableEq, Repr

/-- The `PlaylistData` object built by `Playlist.getInfo`. -/
structure PlaylistInfoData where
  id : String
  title : String
  url : String
  number_videos : Nat
  videos : List (Nat × PlaylistVideoEntry)
deriving DecidableEq, Repr

/-- `Playlist.getInfo` for `withDownloadLinks = false`: the items are stored
under keys `1..n` in order; a failure gets the `Failed to get playlist info:`
prefix. The `withDownloadLinks` branch only rewrites each entry's formats
through `Video.getInfo`, which returns envelopes and never throws, so it
leaves this envelope unchanged. -/
def Playlist_getInfo (ytplResult : Except String RawPlaylistInfo) (url : String) :
    PlaylistResponse PlaylistInfoData :=
  match ytplResult with
  | .ok data =>
    { PlaylistData := some ⟨data.id, data.title, url, data.items.length,
        data.items.enum.map (fun p => (p.1 + 1, ⟨p.2.id, p.2.title, p.2.url⟩))⟩,
      err := false, err_msg := "" }
  | .error msg =>
    { PlaylistData := none, err := true, err_msg := "Failed to get playlist info: " ++ msg }

/-- The envelope returned by the search operations (JSDoc `SearchResponse`). -/
structure SearchResponse (α : Type) where
  results : Option α
  err : Bool
  err_msg : String
deriving DecidableEq, Repr

/-- `YoutubeSearch.main_ytsr` with the `ytsr` call abstracted; on failure the
provider's message is returned verbatim. -/
def main_ytsr (α : Type) (ytsrResult : Except String α) : SearchResponse α :=
  match ytsrResult with
  | .ok results => { results := some results, err := false, err_msg := "" }
  | .error msg => { results := none, err := true, err_msg := msg }

/-- The `{number_items, items}` object built by the search operations. -/
structure SearchResults (α : Type) where
  number_items : Nat
  items : List α
deriving DecidableEq, Repr

/-- `YoutubeSearch.searchVideos` with the `ytsr` call and the per-item shaping
(external helpers `separateNumbers` etc.) abstracted to the shaped item list;
failures get the `Failed to search videos:` prefix. -/
def searchVideos (α : Type) (itemsResult : Except String (List α)) :
    SearchResponse (SearchResults α) :=
  match itemsResult with
  | .ok items => { results := some ⟨items.length, items⟩, err := false, err_msg := "" }
  | .error msg =>
    { results := none, err := true, err_msg := "Failed to search videos: " ++ msg }

/-- `YoutubeSearch.searchPlaylists`: same shape with its own prefix (the inner
`Playlist.numberVideo` call returns an envelope and cannot throw). -/
def searchPlaylists (α : Type) (itemsResult : Except String (List α)) :
    SearchResponse (SearchResults α) :=
  match itemsResult with
  | .ok items => { results := some ⟨items.length, items⟩, err := false, err_msg := "" }
  | .error msg =>
    { results := none, err := true, err_msg := "Failed to search playlists: " ++ msg }

/-- `YoutubeSearch.search`: dispatch on the type string, otherwise the literal
invalid-type error; its catch is unreachable since both delegates return
envelopes. -/
def YoutubeSearch_search (α : Type) (type : String)
    (videoItemsResult playlistItemsResult : Except String (List α)) :
    SearchResponse (SearchResults α) :=
  if type = "video" then searchVideos α videoItemsResult
  else if type = "playlist" then searchPlaylists α playlistItemsResult
  else
    { results := none, err := true,
      err_msg := "Invalid search type: " ++ type ++ ". Must be \"video\" or \"playlist\"." }

/-- `YoutubeSearch.videoAndRecommendations`: a `main_getInfo` failure is
returned verbatim (`return {results: null, err, err_msg}`); on success the
origin/recommendations shaping (external helpers) is abstracted as `prepare`.
The last branch mirrors the catch wrapper around reading `videoDetails` of
null data and is unreachable, since `main_getInfo` pairs `err = false` with
present data. -/
def videoAndRecommendations (α : Type) (fetch : String → FetchResult) (url : String)
    (prepare : RawVideoInfo → α) : SearchResponse α :=
  let r := main_getInfo fetch url
  if r.err then { results := none, err := true, err_msg := r.err_msg }
  else
    match r.VideoData with
    | some VideoData => { results := some (prepare VideoData), err := false, err_msg := "" }
    | none =>
      { results := none, err := true,
        err_msg := "Failed to get video and recommendations: TypeError" }

/-! Concrete data used by witnesses and counterexamples. -/

/-- A typical combined-stream record as the builder produces it. -/
def fr360 : FormatRecord :=
  { title := "video/mp4 [360p] [+audio]", mimeType := "video/mp4", hasVideo := true,
    hasAudio := true, type := "video and audio", quality := some "360p", url := "u1" }

/-- A video-only record whose title also contains the label `360p`. -/
def r9b : FormatRecord :=
  { title := "video/webm [360p] [-audio]", mimeType := "video/webm", hasVideo := true,
    hasAudio := false, type := "video", quality := some "360p", url := "u2" }

/-- A raw descriptor with neither a quality label nor audio. -/
def rawNeither : RawFormat :=
  { mimeType := some "audio/mp4; codecs=opus", qualityLabel := none, hasAudio := false,
    hasVideoTrack := true, url := "u" }

/-- A raw descriptor with audio, a video track, but no quality label. -/
def rawAudioNoLabel : RawFormat :=
  { mimeType := some "audio/webm; codecs=opus", qualityLabel := none, hasAudio := true,
    hasVideoTrack := true, url := "u" }

/-- A raw combined-stream descriptor with a playback URL. -/
def raw1 : RawFormat :=
  { mimeType := some "video/mp4; codecs=avc", qualityLabel := some "360p", hasAudio := true,
    hasVideoTrack := true, url := "https://w/videoplayback?x" }

/-- Raw video info with one combined-stream format. -/
def infoC2 : RawVideoInfo :=
  { videoId := "vid1", title := "t1", video_url := "https://y/watch?v=vid1", formats := [raw1] }

/-- A provider that resolves every URL to `infoC2`. -/
def fetchC2 : String → FetchResult := fun _ => .ok infoC2

/-- A one-entry playlist whose entry points at `infoC2`'s URL. -/
def items1 : List PlaylistItem := [{ id := "vid1", title := "t1", url := "https://y/watch?v=vid1" }]

/-- A provider that rejects every URL. -/
def fetchFail : String → FetchResult := fun _ => .fail "Video unavailable"

/-- Raw video info with no formats at all. -/
def infoEmpty : RawVideoInfo := { videoId := "v0", title := "t0", video_url := "u0", formats := [] }

/-- A provider that resolves every URL to the format-less `infoEmpty`. -/
def fetchEmpty : String → FetchResult := fun _ => .ok infoEmpty

/-! Helper lemmas. -/

/-- Appending to a non-empty string stays non-empty. -/
theorem str_append_ne_empty (a b : String) (ha : a ≠ "") : a ++ b ≠ "" := by
  intro h
  apply ha
  apply String.ext
  have hd := congrArg String.data h
  rw [String.data_append] at hd
  simpa using (List.append_eq_nil.mp (by simpa using hd)).1

/-- Every failing result of the range validator carries a non-empty message. -/
theorem prepare_from_to_msg_ne (countResult : Except String Int) (fromArg toArg : JSNum)
    (h : (prepare_from_to countResult fromArg toArg).succ = false) :
    (prepare_from_to countResult fromArg toArg).msg_err ≠ "" := by
  rcases countResult with m | numberVideo
  · simp only [prepare_from_to]
    apply str_append_ne_empty
    decide
  · simp only [prepare_from_to] at h ⊢
    split_ifs at h ⊢ with h1 h2 h3
    · repeat' apply str_append_ne_empty
      decide
    · repeat' apply str_append_ne_empty
      decide
    · repeat' apply str_append_ne_empty
      decide

/-- The slot list of `getDownloadLinkForMany` has one slot per input URL. -/
theorem manyLinks_length (fetch : String → FetchResult) (types : JSTypes)
    (qualitys : QualitySelector) :
    ∀ (urls : List String) (k : Nat), (manyLinks fetch types qualitys urls k).length = urls.length := by
  intro urls
  induction urls with
  | nil => intro k; rfl
  | cons a rest ih => intro k; simp [manyLinks, ih]

/-- Pointwise description of the slots of `getDownloadLinkForMany`: slot `i`
comes from `getDownloadLink` on URL `i` with ordinal `k + i + 1`. -/
theorem manyLinks_get? (fetch : String → FetchResult) (types : JSTypes)
    (qualitys : QualitySelector) :
    ∀ (urls : List String) (k i : Nat) (u : String), urls.get? i = some u →
      (manyLinks fetch types qualitys urls k).get? i =
        some (if (getDownloadLink fetch u (k + i + 1) types qualitys).err
              then (getDownloadLink fetch u (k + i + 1) types qualitys).err_msg
              else (getDownloadLink fetch u (k + i + 1) types qualitys).results.getD "") := by
  intro urls
  induction urls with
  | nil => intro k i u h; simp at h
  | cons a rest ih =>
    intro k i u h
    cases i with
    | zero =>
      simp only [List.get?_cons_zero, Option.some.injEq] at h
      subst h
      simp [manyLinks]
    | succ j =>
      simp only [List.get?_cons_succ] at h
      have hj := ih (k + 1) j u h
      simp only [manyLinks, List.get?_cons_succ]
      rw [hj]
      have : k + 1 + j + 1 = k + (j + 1) + 1 := by omega
      rw [this]

/-- The stateful quality filter only ever drops records: its output is a
sublist of its input. -/
theorem qualityFilterLoop_sublist (labels : List (List Char)) :
    ∀ (fs : List FormatRecord) (li : Nat), List.Sublist (qualityFilterLoop labels fs li) fs := by
  intro fs
  induction fs with
  | nil => intro li; simp [qualityFilterLoop]
  | cons f rest ih =>
    intro li
    rw [qualityFilterLoop]
    rcases h : regexTest labels f.title.toList li with ⟨b, li2⟩
    cases b
    · exact List.Sublist.cons f (ih li2)
    · exact List.Sublist.cons₂ f (ih li2)

/-- The type filter preserves order: its output is a sublist of its input. -/
theorem filter_formats_by_types_sublist (formats : List FormatRecord) (types : JSTypes) :
    List.Sublist (filter_formats_by_types formats types) formats := by
  cases types with
  | notArray => exact List.Sublist.refl _
  | arr ts => exact List.filter_sublist _

/-- The quality filter preserves order: its output is a sublist of its input. -/
theorem filter_formats_by_qualitys_sublist (formats : List FormatRecord)
    (qualitys : QualitySelector) :
    List.Sublist (filter_formats_by_qualitys formats qualitys) formats := by
  simp only [filter_formats_by_qualitys]
  split_ifs with h
  · exact List.Sublist.refl _
  · exact qualityFilterLoop_sublist _ _ _

/-- The whole format pipeline of `Video.getInfo`: build, type filter, quality
filter. -/
def formatsPipeline (info : RawVideoInfo) (videoNumber : Nat) (types : JSTypes)
    (qualitys : QualitySelector) : List FormatRecord :=
  filter_formats_by_qualitys
    (filter_formats_by_types (prepare_formats info.formats videoNumber info.title) types) qualitys

/-- The default response format resolves to itself. -/
theorem normVideoDataType_json : normVideoDataType "json" = "json" := by decide

/-- `Video.getInfo` either fails with a prefixed provider message or succeeds
with an empty message. -/
theorem Video_getInfo_cases (fetch : String → FetchResult) (url : String) (n : Nat)
    (vdt : String) (types : JSTypes) (qualitys : QualitySelector) :
    (∃ msg, Video_getInfo fetch url n vdt types qualitys =
        { VideoData := none, err := true, err_msg := "Failed to get video info: " ++ msg })
    ∨ (∃ pl, Video_getInfo fetch url n vdt types qualitys =
        { VideoData := some pl, err := false, err_msg := "" }) := by
  cases hf : fetch url with
  | fail m => exact Or.inl ⟨m, by simp [Video_getInfo, hf]⟩
  | ok info =>
    refine Or.inr ?_
    simp only [Video_getInfo, hf]
    split_ifs <;> exact ⟨_, rfl⟩

/-- `Video.getDownloadLink` either fails with a non-empty message or succeeds
with an empty one. -/
theorem getDownloadLink_cases (fetch : String → FetchResult) (url : String) (n : Nat)
    (types : JSTypes) (qualitys : QualitySelector) :
    (∃ msg, getDownloadLink fetch url n types qualitys =
        { results := none, err := true, err_msg := msg } ∧ msg ≠ "")
    ∨ (∃ s, getDownloadLink fetch url n types qualitys =
        { results := some s, err := false, err_msg := "" }) := by
  rcases Video_getInfo_cases fetch url n "json" types qualitys with ⟨m, hm⟩ | ⟨pl, hp⟩
  · left
    refine ⟨"ERROR: In Get Download Link " ++ ("| N: " ++ toString n ++ " | url: " ++ url)
        ++ " | ERROR MESSAGE: " ++ ("Failed to get video info: " ++ m), ?_, ?_⟩
    · simp [getDownloadLink, hm]
    · repeat' apply str_append_ne_empty
      decide
  · cases pl with
    | json vd =>
      right
      rcases hF : vd.formats with _ | ⟨f, rest⟩
      · refine ⟨"No download link found " ++ ("| N: " ++ toString n ++ " | url: " ++ url), ?_⟩
        simp [getDownloadLink, hp, hF]
      · refine ⟨f.url, ?_⟩
        simp [getDownloadLink, hp, hF]
    | text s =>
      left
      refine ⟨"ERROR: In Get Download Link " ++ ("| N: " ++ toString n ++ " | url: " ++ url)
        ++ " | ERROR MESSAGE: TypeError", ?_, ?_⟩
      · simp [getDownloadLink, hp]
      · repeat' apply str_append_ne_empty
        decide

/-! Claim theorems. -/

/-- C1: for every totalCount ≥ 1, `prepare_from_to` defaults a null or
non-numeric `from` to 1 and a null or non-numeric `to` to totalCount; it fails
when the normalized from ≤ 0 or to ≤ 0, fails when from > to, fails when
from > totalCount or to > totalCount, and otherwise succeeds with the
normalized inclusive 1-based pair. -/
theorem prepare_from_to_range_validation (totalCount : Int) (h : 1 ≤ totalCount)
    (fromArg toArg : JSNum) :
    (∀ d : Int, jsNormalize .null d = d ∧ jsNormalize .nonNumeric d = d)
    ∧ (prepare_from_to (.ok totalCount) .null .null =
        { succ := true, msg_err := "", fromN := some 1, toN := some totalCount })
    ∧ ((jsNormalize fromArg 1 ≤ 0 ∨ jsNormalize toArg totalCount ≤ 0) →
        prepare_from_to (.ok totalCount) fromArg toArg =
          { succ := false,
            msg_err := "ERROR: From '" ++ toString (jsNormalize fromArg 1) ++ "' and To '"
              ++ toString (jsNormalize toArg totalCount) ++ "' must be greater than 0",
            fromN := none, toN := none })
    ∧ (0 < jsNormalize fromArg 1 → 0 < jsNormalize toArg totalCount →
        jsNormalize toArg totalCount < jsNormalize fromArg 1 →
        prepare_from_to (.ok totalCount) fromArg toArg =
          { succ := false,
            msg_err := "ERROR: From '" ++ toString (jsNormalize fromArg 1)
              ++ "' must be less than or equal to To '"
              ++ toString (jsNormalize toArg totalCount) ++ "'",
            fromN := none, toN := none })
    ∧ (0 < jsNormalize fromArg 1 → 0 < jsNormalize toArg totalCount →
        jsNormalize fromArg 1 ≤ jsNormalize toArg totalCount →
        (totalCount < jsNormalize fromArg 1 ∨ totalCount < jsNormalize toArg totalCount) →
        prepare_from_to (.ok totalCount) fromArg toArg =
          { succ := false,
            msg_err := "ERROR: From '" ++ toString (jsNormalize fromArg 1) ++ "' and To '"
              ++ toString (jsNormalize toArg totalCount)
              ++ "' must not be greater than the number of videos in playlist ("
              ++ toString totalCount ++ ")",
            fromN := none, toN := none })
    ∧ (0 < jsNormalize fromArg 1 → 0 < jsNormalize toArg totalCount →
        jsNormalize fromArg 1 ≤ jsNormalize toArg totalCount →
        jsNormalize fromArg 1 ≤ totalCount → jsNormalize toArg totalCount ≤ totalCount →
        prepare_from_to (.ok totalCount) fromArg toArg =
          { succ := true, msg_err := "",
            fromN := some (jsNormalize fromArg 1), toN := some (jsNormalize toArg totalCount) }) := by
  refine ⟨fun d => ⟨rfl, rfl⟩, ?_, ?_, ?_, ?_, ?_⟩
  · simp only [prepare_from_to, jsNormalize]
    split_ifs <;> first | rfl | omega
  · intro hc
    simp only [prepare_from_to]
    split_ifs <;> first | rfl | omega
  · intro hf ht hlt
    simp only [prepare_from_to]
    split_ifs <;> first | rfl | omega
  · intro hf ht hle hgt
    simp only [prepare_from_to]
    split_ifs <;> first | rfl | omega
  · intro hf ht hle hfb htb
    simp only [prepare_from_to]
    split_ifs <;> first | rfl | omega

/-- Witness for C1: the spec's four concrete range examples at totalCount 10,
derived from the range-validation theorem. -/
theorem prepare_from_to_range_validation_witness :
    prepare_from_to (.ok 10) .null .null =
      { succ := true, msg_err := "", fromN := some 1, toN := some 10 }
    ∧ prepare_from_to (.ok 10) (.num 0) (.num 5) =
      { succ := false, msg_err := "ERROR: From '0' and To '5' must be greater than 0",
        fromN := none, toN := none }
    ∧ prepare_from_to (.ok 10) (.num 6) (.num 3) =
      { succ := false, msg_err := "ERROR: From '6' must be less than or equal to To '3'",
        fromN := none, toN := none }
    ∧ prepare_from_to (.ok 10) (.num 1) (.num 20) =
      { succ := false,
        msg_err :=
          "ERROR: From '1' and To '20' must not be greater than the number of videos in playlist (10)",
        fromN := none, toN := none } := by
  refine ⟨(prepare_from_to_range_validation 10 (by decide) .null .null).2.1, ?_, ?_, ?_⟩
  · have h := (prepare_from_to_range_validation 10 (by decide) (.num 0) (.num 5)).2.2.1
      (by decide)
    rw [h]; decide
  · have h := (prepare_from_to_range_validation 10 (by decide) (.num 6) (.num 3)).2.2.2.1
      (by decide) (by decide) (by decide)
    rw [h]; decide
  · have h := (prepare_from_to_range_validation 10 (by decide) (.num 1) (.num 20)).2.2.2.2.1
      (by decide) (by decide) (by decide) (by decide)
    rw [h]; decide

/-- C3 counterexample: a descriptor with neither a quality label nor audio is
classified `"others"`, not `"other"` as the claim states. -/
theorem buildRecord_type_others_not_other :
    (buildRecord 1 "video title" rawNeither).hasVideo = false
    ∧ (buildRecord 1 "video title" rawNeither).hasAudio = false
    ∧ (buildRecord 1 "video title" rawNeither).type = "others"
    ∧ ((buildRecord 1 "video title" rawNeither).type == "other") = false := by
  decide

/-- C3 (amended): a built record's type is "video and audio" with both video
and audio, "video" with video only, "audio" with audio only, and "others"
(not "other") with neither. -/
theorem buildRecord_type_classification (videoNumber : Nat) (videoTitle : String)
    (f : RawFormat) :
    (buildRecord videoNumber videoTitle f).type =
      if (buildRecord videoNumber videoTitle f).hasVideo
          && (buildRecord videoNumber videoTitle f).hasAudio then "video and audio"
      else if (buildRecord videoNumber videoTitle f).hasVideo then "video"
      else if (buildRecord videoNumber videoTitle f).hasAudio then "audio"
      else "others" := rfl

/-- C4: the quality filter's shared `g`-flagged regex makes record inclusion
depend on earlier records: of two identical records whose title contains the
enabled label "360p", only the first is kept, refuting the claimed pointwise
substring predicate. With no enabled label the input passes through. -/
theorem filter_formats_by_qualitys_stateful_regex_bug :
    filter_formats_by_qualitys [fr360, fr360] [("360p", true)] = [fr360]
    ∧ titleContainsCI fr360.title "360p" = true
    ∧ filter_formats_by_qualitys [fr360, fr360] [] = [fr360, fr360] := by
  decide

/-- C8: a non-array type selector skips filtering, and an array selector keeps
exactly the records whose type is an element of it. -/
theorem filter_formats_by_types_allowlist (formats : List FormatRecord) (ts : List String) :
    filter_formats_by_types formats .notArray = formats
    ∧ ∀ f, f ∈ filter_formats_by_types formats (.arr ts) ↔ f ∈ formats ∧ f.type ∈ ts := by
  refine ⟨rfl, fun f => ?_⟩
  simp [filter_formats_by_types, List.mem_filter]

/-- Witness for C8 at a concrete record and selectors. -/
theorem filter_formats_by_types_allowlist_witness :
    filter_formats_by_types [fr360] .notArray = [fr360]
    ∧ fr360 ∈ filter_formats_by_types [fr360] (.arr ["video and audio"]) := by
  have h := filter_formats_by_types_allowlist [fr360] ["video and audio"]
  exact ⟨h.1, (h.2 fr360).mpr ⟨by decide, by decide⟩⟩

/-- C9: the two filters do not commute: on a combined-stream record followed by
a video-only record, both titles containing "360p", filtering types then
qualities keeps the second record while the reverse order keeps nothing. -/
theorem format_filters_not_commutative_bug :
    filter_formats_by_qualitys (filter_formats_by_types [fr360, r9b] (.arr ["video"]))
        [("360p", true)] = [r9b]
    ∧ filter_formats_by_types (filter_formats_by_qualitys [fr360, r9b] [("360p", true)])
        (.arr ["video"]) = []
    ∧ decide (filter_formats_by_qualitys (filter_formats_by_types [fr360, r9b] (.arr ["video"]))
          [("360p", true)]
        = filter_formats_by_types (filter_formats_by_qualitys [fr360, r9b] [("360p", true)])
          (.arr ["video"])) = false := by
  decide

/-- C10: a built record's hasVideo flag is exactly the presence of the raw
descriptor's qualityLabel, its quality field is that label, the provider's
own video-track flag is ignored, and a descriptor without a label is
classified audio-only or neither. -/
theorem buildRecord_hasVideo_from_qualityLabel (videoNumber : Nat) (videoTitle : String)
    (f : RawFormat) :
    (buildRecord videoNumber videoTitle f).hasVideo = f.qualityLabel.isSome
    ∧ (buildRecord videoNumber videoTitle f).quality = f.qualityLabel
    ∧ (∀ b, (buildRecord videoNumber videoTitle { f with hasVideoTrack := b }).hasVideo
        = f.qualityLabel.isSome)
    ∧ (f.qualityLabel = none →
        (buildRecord videoNumber videoTitle f).type =
          if f.hasAudio then "audio" else "others") := by
  refine ⟨rfl, rfl, fun b => rfl, fun hq => ?_⟩
  simp [buildRecord, hq]

/-- Witness for C10: a descriptor with a video track, audio, but no quality
label is classified as audio-only. -/
theorem buildRecord_hasVideo_from_qualityLabel_witness :
    (buildRecord 1 "t" rawAudioNoLabel).hasVideo = false
    ∧ (buildRecord 1 "t" rawAudioNoLabel).type = "audio" := by
  have h := buildRecord_hasVideo_from_qualityLabel 1 "t" rawAudioNoLabel
  exact ⟨by simpa [rawAudioNoLabel] using h.1, by simpa [rawAudioNoLabel] using h.2.2.2 rfl⟩

/-- C2: in `getDownloadsLinks`, the slot for an existing playlist entry is the
whole `DownloadResponse` envelope object returned by `getDownloadLink` — not
its `results` string as the claim and the source's own JSDoc
(`results: string[]`) state. Evaluated on a one-entry playlist whose download
succeeds. -/
theorem getDownloadsLinks_slot_envelope_object_bug :
    Playlist_getDownloadsLinks fetchC2 (.ok 1) (.ok items1) "json" (.arr ["video and audio"])
        .null .null [] =
      ⟨some (.arr [.obj ⟨some "https://w/videoplayback/1 - t1?x", false, ""⟩]), false, ""⟩
    ∧ isStrSlot (.obj ⟨some "https://w/videoplayback/1 - t1?x", false, ""⟩) = false := by
  exact ⟨by decide, rfl⟩

/-- C5: `getDownloadLinkForMany` normalizes a single string to a one-element
list, produces one slot per URL in input order with 1-based ordinals, puts the
item's error message into the slot when the item fails and its results string
otherwise, joins the slots with a blank line, and always returns an outer
success envelope. -/
theorem getDownloadLinkForMany_batch_success (fetch : String → FetchResult) (types : JSTypes)
    (qualitys : QualitySelector) (videoUrls : UrlsArg) :
    (getDownloadLinkForMany fetch videoUrls types qualitys).err = false
    ∧ (getDownloadLinkForMany fetch videoUrls types qualitys).err_msg = ""
    ∧ (getDownloadLinkForMany fetch videoUrls types qualitys).results =
        some (String.intercalate "\n\n" (manyLinks fetch types qualitys (urlsOf videoUrls) 0))
    ∧ (∀ s, urlsOf (.one s) = [s])
    ∧ (manyLinks fetch types qualitys (urlsOf videoUrls) 0).length = (urlsOf videoUrls).length
    ∧ (∀ i u, (urlsOf videoUrls).get? i = some u →
        (manyLinks fetch types qualitys (urlsOf videoUrls) 0).get? i =
          some (if (getDownloadLink fetch u (i + 1) types qualitys).err
                then (getDownloadLink fetch u (i + 1) types qualitys).err_msg
                else (getDownloadLink fetch u (i + 1) types qualitys).results.getD "")) := by
  refine ⟨rfl, rfl, rfl, fun s => rfl, manyLinks_length fetch types qualitys _ 0,
    fun i u h => ?_⟩
  simpa using manyLinks_get? fetch types qualitys (urlsOf videoUrls) 0 i u h

/-- Witness for C5: a batch of one bad URL returns an outer success envelope
whose single slot is the per-item error text. -/
theorem getDownloadLinkForMany_batch_success_witness :
    getDownloadLinkForMany fetchFail (.one "badurl") (.arr ["video and audio"]) [] =
      { results := some
          "ERROR: In Get Download Link | N: 1 | url: badurl | ERROR MESSAGE: Failed to get video info: Video unavailable",
        err := false, err_msg := "" }
    ∧ (manyLinks fetchFail (.arr ["video and audio"]) [] (urlsOf (.one "badurl")) 0).get? 0 =
      some (if (getDownloadLink fetchFail "badurl" 1 (.arr ["video and audio"]) []).err
            then (getDownloadLink fetchFail "badurl" 1 (.arr ["video and audio"]) []).err_msg
            else (getDownloadLink fetchFail "badurl" 1
              (.arr ["video and audio"]) []).results.getD "") := by
  have h := getDownloadLinkForMany_batch_success fetchFail (.arr ["video and audio"]) []
    (.one "badurl")
  refine ⟨by decide, ?_⟩
  simpa using h.2.2.2.2.2 0 "badurl" rfl

/-- C6: when the provider call succeeds, `getDownloadLink` returns a success
envelope carrying the placeholder "No download link found | N: n | url: url"
when the filtered format list is empty, and the URL of the first surviving
format otherwise; the filter chain only drops records (sublist), so that first
format is the first survivor in the provider's original order. -/
theorem getDownloadLink_first_surviving_format (fetch : String → FetchResult) (url : String)
    (videoNumber : Nat) (types : JSTypes) (qualitys : QualitySelector) (info : RawVideoInfo)
    (hfetch : fetch url = .ok info) :
    (formatsPipeline info videoNumber types qualitys = [] →
      getDownloadLink fetch url videoNumber types qualitys =
        { results := some ("No download link found " ++ ("| N: " ++ toString videoNumber
            ++ " | url: " ++ url)),
          err := false, err_msg := "" })
    ∧ (∀ format rest, formatsPipeline info videoNumber types qualitys = format :: rest →
        getDownloadLink fetch url videoNumber types qualitys =
          { results := some format.url, err := false, err_msg := "" })
    ∧ List.Sublist (formatsPipeline info videoNumber types qualitys)
        (prepare_formats info.formats videoNumber info.title) := by
  have hv : Video_getInfo fetch url videoNumber "json" types qualitys =
      ⟨some (.json ⟨info.videoId, info.title, info.video_url,
        formatsPipeline info videoNumber types qualitys⟩), false, ""⟩ := by
    simp [Video_getInfo, hfetch, normVideoDataType_json, formatsPipeline]
  refine ⟨?_, ?_, ?_⟩
  · intro hnil
    simp [getDownloadLink, hv, hnil]
  · intro format rest hcons
    simp [getDownloadLink, hv, hcons]
  · exact (filter_formats_by_qualitys_sublist _ _).trans (filter_formats_by_types_sublist _ _)

/-- Witness for C6: a format-less video yields the placeholder success
envelope; a one-format video yields its (rewritten) first format URL. -/
theorem getDownloadLink_first_surviving_format_witness :
    getDownloadLink fetchEmpty "u" 1 (.arr ["video and audio"]) [] =
      { results := some "No download link found | N: 1 | url: u", err := false, err_msg := "" }
    ∧ getDownloadLink fetchC2 "https://y/watch?v=vid1" 1 (.arr ["video and audio"]) [] =
      { results := some "https://w/videoplayback/1 - t1?x", err := false, err_msg := "" } := by
  constructor
  · have h := (getDownloadLink_first_surviving_format fetchEmpty "u" 1
      (.arr ["video and audio"]) [] infoEmpty rfl).1 rfl
    rw [h]; decide
  · have h := (getDownloadLink_first_surviving_format fetchC2 "https://y/watch?v=vid1" 1
      (.arr ["video and audio"]) [] infoC2 rfl).2.1 (buildRecord 1 "t1" raw1) [] (by decide)
    rw [h]; decide

/-- C7 counterexample: `Playlist.numberVideo` is a public operation that
forwards the provider's message verbatim, so a provider failure whose message
is empty yields err = true together with an empty err_msg, refuting the
claimed "err = true implies err_msg non-empty" over every public operation. -/
theorem numberVideo_empty_provider_message :
    numberVideo (Except.error "") = { numberVideo := none, err := true, err_msg := "" }
    ∧ (numberVideo (Except.error "")).err = true
    ∧ (numberVideo (Except.error "")).err_msg = "" :=
  ⟨rfl, rfl, rfl⟩

/-- C7 (amended): every public operation returns an envelope with err = true
implying null data and err = false implying empty err_msg; err = true
additionally implies a non-empty err_msg for every operation that prefixes its
own context onto failures (Video.getInfo, getDownloadLink,
getDownloadLinkForMany, Playlist.getInfo, getDownloadsLinks, searchVideos,
searchPlaylists, search), while the raw passthrough operations (main_getInfo,
main_ytpl, numberVideo, main_ytsr, videoAndRecommendations) copy the
provider's message verbatim, so their failure message is empty exactly when
the provider's is. -/
theorem response_envelope_invariant (α : Type) (fetch : String → FetchResult) (url : String)
    (n : Nat) (vdt : String) (types : JSTypes) (qualitys : QualitySelector) (videoUrls : UrlsArg)
    (countResult : Except String Int) (playlistResult : Except String (List PlaylistItem))
    (vdt2 : String) (fromArg toArg : JSNum)
    (ytplFetch : String → JSNum → Except String RawPlaylistInfo) (limit : JSNum)
    (ytplResult : Except String RawPlaylistInfo) (sType : String)
    (videoItemsResult playlistItemsResult : Except String (List α))
    (prepare : RawVideoInfo → α) :
    ((Video_getInfo fetch url n vdt types qualitys).err = true →
        (Video_getInfo fetch url n vdt types qualitys).VideoData = none
        ∧ (Video_getInfo fetch url n vdt types qualitys).err_msg ≠ "")
    ∧ ((Video_getInfo fetch url n vdt types qualitys).err = false →
        (Video_getInfo fetch url n vdt types qualitys).err_msg = "")
    ∧ ((getDownloadLink fetch url n types qualitys).err = true →
        (getDownloadLink fetch url n types qualitys).results = none
        ∧ (getDownloadLink fetch url n types qualitys).err_msg ≠ "")
    ∧ ((getDownloadLink fetch url n types qualitys).err = false →
        (getDownloadLink fetch url n types qualitys).err_msg = "")
    ∧ ((getDownloadLinkForMany fetch videoUrls types qualitys).err = true →
        (getDownloadLinkForMany fetch videoUrls types qualitys).results = none
        ∧ (getDownloadLinkForMany fetch videoUrls types qualitys).err_msg ≠ "")
    ∧ ((getDownloadLinkForMany fetch videoUrls types qualitys).err = false →
        (getDownloadLinkForMany fetch videoUrls types qualitys).err_msg = "")
    ∧ ((Playlist_getDownloadsLinks fetch countResult playlistResult vdt2 types fromArg toArg
          qualitys).err = true →
        (Playlist_getDownloadsLinks fetch countResult playlistResult vdt2 types fromArg toArg
          qualitys).results = none
        ∧ (Playlist_getDownloadsLinks fetch countResult playlistResult vdt2 types fromArg toArg
            qualitys).err_msg ≠ "")
    ∧ ((Playlist_getDownloadsLinks fetch countResult playlistResult vdt2 types fromArg toArg
          qualitys).err = false →
        (Playlist_getDownloadsLinks fetch countResult playlistResult vdt2 types fromArg toArg
          qualitys).err_msg = "")
    ∧ ((main_getInfo fetch url).err = true → (main_getInfo fetch url).VideoData = none)
    ∧ ((main_getInfo fetch url).err = false → (main_getInfo fetch url).err_msg = "")
    ∧ (∀ msg, fetch url = .fail msg →
        main_getInfo fetch url = { VideoData := none, err := true, err_msg := msg })
    ∧ ((main_ytpl ytplFetch url limit).err = true →
        (main_ytpl ytplFetch url limit).PlaylistData = none)
    ∧ ((main_ytpl ytplFetch url limit).err = false →
        (main_ytpl ytplFetch url limit).err_msg = "")
    ∧ (∀ msg, ytplFetch url (jsNormalizeLimit limit) = .error msg →
        main_ytpl ytplFetch url limit = { PlaylistData := none, err := true, err_msg := msg })
    ∧ (∀ msg, numberVideo (.error msg) = { numberVideo := none, err := true, err_msg := msg })
    ∧ (∀ c, numberVideo (.ok c) = { numberVideo := some c, err := false, err_msg := "" })
    ∧ ((Playlist_getInfo ytplResult url).err = true →
        (Playlist_getInfo ytplResult url).PlaylistData = none
        ∧ (Playlist_getInfo ytplResult url).err_msg ≠ "")
    ∧ ((Playlist_getInfo ytplResult url).err = false →
        (Playlist_getInfo ytplResult url).err_msg = "")
    ∧ (∀ msg, main_ytsr α (.error msg) = { results := none, err := true, err_msg := msg })
    ∧ (∀ x : α, main_ytsr α (.ok x) = { results := some x, err := false, err_msg := "" })
    ∧ ((searchVideos α videoItemsResult).err = true →
        (searchVideos α videoItemsResult).results = none
        ∧ (searchVideos α videoItemsResult).err_msg ≠ "")
    ∧ ((searchVideos α videoItemsResult).err = false →
        (searchVideos α videoItemsResult).err_msg = "")
    ∧ ((searchPlaylists α playlistItemsResult).err = true →
        (searchPlaylists α playlistItemsResult).results = none
        ∧ (searchPlaylists α playlistItemsResult).err_msg ≠ "")
    ∧ ((searchPlaylists α playlistItemsResult).err = false →
        (searchPlaylists α playlistItemsResult).err_msg = "")
    ∧ ((YoutubeSearch_search α sType videoItemsResult playlistItemsResult).err = true →
        (YoutubeSearch_search α sType videoItemsResult playlistItemsResult).results = none
        ∧ (YoutubeSearch_search α sType videoItemsResult playlistItemsResult).err_msg ≠ "")
    ∧ ((YoutubeSearch_search α sType videoItemsResult playlistItemsResult).err = false →
        (YoutubeSearch_search α sType videoItemsResult playlistItemsResult).err_msg = "")
    ∧ ((videoAndRecommendations α fetch url prepare).err = true →
        (videoAndRecommendations α fetch url prepare).results = none)
    ∧ ((videoAndRecommendations α fetch url prepare).err = false →
        (videoAndRecommendations α fetch url prepare).err_msg = "")
    ∧ (∀ msg, fetch url = .fail msg →
        videoAndRecommendations α fetch url prepare =
          { results := none, err := true, err_msg := msg }) := by
  refine ⟨?_, ?_, ?_, ?_, ?_, ?_, ?_, ?_, ?_, ?_, ?_, ?_, ?_, ?_, ?_, ?_, ?_, ?_, ?_, ?_, ?_,
    ?_, ?_, ?_, ?_, ?_, ?_, ?_, ?_⟩
  · intro he
    rcases Video_getInfo_cases fetch url n vdt types qualitys with ⟨m, hm⟩ | ⟨pl, hp⟩
    · rw [hm]
      exact ⟨rfl, str_append_ne_empty _ _ (by decide)⟩
    · rw [hp] at he
      simp at he
  · intro he
    rcases Video_getInfo_cases fetch url n vdt types qualitys with ⟨m, hm⟩ | ⟨pl, hp⟩
    · rw [hm] at he
      simp at he
    · rw [hp]
  · intro he
    rcases getDownloadLink_cases fetch url n types qualitys with ⟨m, hm, hne⟩ | ⟨s, hs⟩
    · rw [hm]
      exact ⟨rfl, hne⟩
    · rw [hs] at he
      simp at he
  · intro he
    rcases getDownloadLink_cases fetch url n types qualitys with ⟨m, hm, hne⟩ | ⟨s, hs⟩
    · rw [hm] at he
      simp at he
    · rw [hs]
  · intro he
    simp [getDownloadLinkForMany] at he
  · intro _
    rfl
  · intro he
    simp only [Playlist_getDownloadsLinks] at he ⊢
    split_ifs at he ⊢ with h1 h2
    · exact ⟨rfl, prepare_from_to_msg_ne _ _ _ (by simpa using h1)⟩
    · rcases playlistResult with m | items
      · exact ⟨rfl, str_append_ne_empty _ _ (by decide)⟩
      · simp at he
    · rcases playlistResult with m | items
      · exact ⟨rfl, str_append_ne_empty _ _ (by decide)⟩
      · simp at he
  · intro he
    simp only [Playlist_getDownloadsLinks] at he ⊢
    split_ifs at he ⊢ with h1 h2
    · rcases playlistResult with m | items
      · simp at he
      · rfl
    · rcases playlistResult with m | items
      · simp at he
      · rfl
  · intro he
    cases hf : fetch url <;> simp [main_getInfo, hf] at he ⊢
  · intro he
    cases hf : fetch url <;> simp [main_getInfo, hf] at he ⊢
  · intro msg hmsg
    simp [main_getInfo, hmsg]
  · intro he
    cases hy : ytplFetch url (jsNormalizeLimit limit) <;> simp [main_ytpl, hy] at he ⊢
  · intro he
    cases hy : ytplFetch url (jsNormalizeLimit limit) <;> simp [main_ytpl, hy] at he ⊢
  · intro msg hmsg
    simp [main_ytpl, hmsg]
  · intro msg
    rfl
  · intro c
    rfl
  · intro he
    rcases ytplResult with msg | data
    · exact ⟨rfl, str_append_ne_empty _ _ (by decide)⟩
    · simp [Playlist_getInfo] at he
  · intro he
    rcases ytplResult with msg | data
    · simp [Playlist_getInfo] at he
    · rfl
  · intro msg
    rfl
  · intro x
    rfl
  · intro he
    rcases videoItemsResult with msg | items
    · exact ⟨rfl, str_append_ne_empty _ _ (by decide)⟩
    · simp [searchVideos] at he
  · intro he
    rcases videoItemsResult with msg | items
    · simp [searchVideos] at he
    · rfl
  · intro he
    rcases playlistItemsResult with msg | items
    · exact ⟨rfl, str_append_ne_empty _ _ (by decide)⟩
    · simp [searchPlaylists] at he
  · intro he
    rcases playlistItemsResult with msg | items
    · simp [searchPlaylists] at he
    · rfl
  · intro he
    simp only [YoutubeSearch_search] at he ⊢
    split_ifs at he ⊢ with h1 h2
    · rcases videoItemsResult with msg | items
      · exact ⟨rfl, str_append_ne_empty _ _ (by decide)⟩
      · simp [searchVideos] at he
    · rcases playlistItemsResult with msg | items
      · exact ⟨rfl, str_append_ne_empty _ _ (by decide)⟩
      · simp [searchPlaylists] at he
    · refine ⟨rfl, ?_⟩
      repeat' apply str_append_ne_empty
      decide
  · intro he
    simp only [YoutubeSearch_search] at he ⊢
    split_ifs at he ⊢ with h1 h2
    · rcases videoItemsResult with msg | items
      · simp [searchVideos] at he
      · rfl
    · rcases playlistItemsResult with msg | items
      · simp [searchPlaylists] at he
      · rfl
  · intro he
    cases hf : fetch url <;> simp [videoAndRecommendations, main_getInfo, hf] at he ⊢
  · intro he
    cases hf : fetch url <;> simp [videoAndRecommendations, main_getInfo, hf] at he ⊢
  · intro msg hmsg
    simp [videoAndRecommendations, main_getInfo, hmsg]

/-- Witness for C7: the amended invariant evaluated on concrete failing
providers across the modules, including a verbatim-passthrough failure. -/
theorem response_envelope_invariant_witness :
    (Video_getInfo fetchFail "u" 1 "json" (.arr ["video and audio"]) []).VideoData = none
    ∧ ((Video_getInfo fetchFail "u" 1 "json" (.arr ["video and audio"]) []).err_msg == "") = false
    ∧ (getDownloadLink fetchFail "u" 1 (.arr ["video and audio"]) []).results = none
    ∧ (Playlist_getDownloadsLinks fetchFail (.error "x") (.ok []) "json"
        (.arr ["video and audio"]) .null .null []).results = none
    ∧ (getDownloadLinkForMany fetchFail (.one "u") (.arr ["video and audio"]) []).err_msg = ""
    ∧ numberVideo (.error "boom") = { numberVideo := none, err := true, err_msg := "boom" }
    ∧ main_getInfo fetchFail "u" =
        { VideoData := none, err := true, err_msg := "Video unavailable" }
    ∧ main_ytsr Nat (.error "m") = { results := none, err := true, err_msg := "m" }
    ∧ (searchVideos Nat (.error "sv")).results = none
    ∧ videoAndRecommendations Nat fetchFail "u" (fun _ => 0) =
        { results := none, err := true, err_msg := "Video unavailable" } := by
  have h := response_envelope_invariant Nat fetchFail "u" 1 "json" (.arr ["video and audio"]) []
    (.one "u") (.error "x") (.ok []) "json" .null .null (fun _ _ => .error "p") .null
    (.error "q") "video" (.error "sv") (.ok []) (fun _ => 0)
  obtain ⟨h1, h2, h3, h4, h5, h6, h7, h8, h9, h10, h11, h12, h13, h14, h15, h16, h17, h18, h19,
    h20, h21, h22, h23, h24, h25, h26, h27, h28, h29⟩ := h
  refine ⟨(h1 rfl).1, ?_, (h3 rfl).1, (h7 rfl).1, h6 rfl, h15 "boom", h11 "Video unavailable" rfl,
    h19 "m", (h21 rfl).1, h29 "Video unavailable" rfl⟩
  simpa using (h1 rfl).2

end YtScrape
